import Mathlib

set_option maxRecDepth 100000

/-!
Shallow embedding of `src/transformation/utils/diagnostics.ts` from the
TypeScriptToLua repository: the diagnostic factory builder and the catalog
of diagnostic kinds, together with theorems settling the specification
claims about them.

External collaborators (the TypeScript AST node API, `ts.DiagnosticCategory`,
`ts.SyntaxKind`, `AnnotationKind`, `LuaTarget`, and the wrapper
`createSerialDiagnosticFactory` from `src/utils.ts`) are not part of the
provided sources; they are modelled from the specification, each marked by a
doc comment starting with `Modelled from the spec:`.
-/

/-- Modelled from the spec: an opaque, by-value-copyable source-file
reference (`SourceFileRef`), produced by the upstream parser. -/
structure SourceFile where
  id : Nat
deriving DecidableEq

/-- Modelled from the spec: an AST node, "a position-bearing unit of the
parsed input program"; the Position Resolver can query its source file,
start offset and width. -/
structure TSNode where
  sourceFile : SourceFile
  startOffset : Nat
  width : Nat
deriving DecidableEq

/-- Modelled from the spec: Position Resolver query `node.getSourceFile()`. -/
def TSNode.getSourceFile (node : TSNode) : SourceFile :=
  node.sourceFile

/-- Modelled from the spec: Position Resolver query `node.getStart()`. -/
def TSNode.getStart (node : TSNode) : Nat :=
  node.startOffset

/-- Modelled from the spec: Position Resolver query `node.getWidth()`. -/
def TSNode.getWidth (node : TSNode) : Nat :=
  node.width

/-- Modelled from the spec: `ts.DiagnosticCategory`, the closed severity
enumeration used by this subsystem: `{Error, Warning}`. -/
inductive DiagnosticCategory where
  | Error : DiagnosticCategory
  | Warning : DiagnosticCategory
deriving DecidableEq

/-- The record built by a diagnostic factory invocation, with the fields of
the object literal in `createDiagnosticFactory`:
`{ file, start, length, messageText, category }`. -/
structure DiagnosticRecord where
  file : SourceFile
  start : Nat
  length : Nat
  messageText : String
  category : DiagnosticCategory
deriving DecidableEq

/-- `type MessageProvider<TArgs> = string | ((...args: TArgs) => string)`:
either a constant string or a function computing the message text from the
factory's extra arguments (modelled as a single value of type `α`). -/
inductive MessageProvider (α : Type) where
  | str : String → MessageProvider α
  | fn : (α → String) → MessageProvider α

/-- Modelled from the spec: `createSerialDiagnosticFactory` (defined in
`src/utils.ts`, which is not among the provided sources) turns a
record-building function into the callable diagnostic factory; per spec
section 4.1 an invocation resolves span and text and "Returns
DiagnosticRecord{span, category, text}" unchanged, so it is the identity
wrapper around the create function. -/
def createSerialDiagnosticFactory {α : Type} (create : TSNode → α → DiagnosticRecord) :
    TSNode → α → DiagnosticRecord :=
  create

/-- `createDiagnosticFactory` from the source: builds a factory that, on
`(node, args)`, resolves the position triple from the node and renders the
message (`typeof message === "string" ? message : message(...args)`). -/
def createDiagnosticFactory {α : Type} (category : DiagnosticCategory)
    (message : MessageProvider α) : TSNode → α → DiagnosticRecord :=
  createSerialDiagnosticFactory (fun node args =>
    { file := node.getSourceFile
      start := node.getStart
      length := node.getWidth
      messageText :=
        match message with
        | .str s => s
        | .fn f => f args
      category := category })

/-- `createErrorDiagnosticFactory` from the source. -/
def createErrorDiagnosticFactory {α : Type} (message : MessageProvider α) :
    TSNode → α → DiagnosticRecord :=
  createDiagnosticFactory DiagnosticCategory.Error message

/-- `createWarningDiagnosticFactory` from the source. -/
def createWarningDiagnosticFactory {α : Type} (message : MessageProvider α) :
    TSNode → α → DiagnosticRecord :=
  createDiagnosticFactory DiagnosticCategory.Warning message

/-- Modelled from the spec: `ts.SyntaxKind`, an external enumeration of the
upstream parser, carrying a numeric code and the reverse-mapped name that
`ts.SyntaxKind[kind]` interpolates into the message. -/
structure SyntaxKind where
  code : Nat
  name : String
deriving DecidableEq

/-- Modelled from the spec: `AnnotationKind`, "an external closed set of
string-like tags, used only as factory-call arguments, with a defined
lower-case textual form used in one message"; modelled by its string tag. -/
abbrev AnnotationKind := String

/-- Modelled from the spec: JavaScript `String.prototype.toLowerCase`
applied to an annotation tag, character-wise lower-casing. -/
def toLowerCase (s : String) : String :=
  String.mk (s.data.map Char.toLower)

/-- Modelled from the spec: `LuaTarget`, "an external closed set of
output-target identifiers". The one special-cased identifier is `LuaJIT`;
every other identifier is modelled by the version string that interpolates
for it in a template (`Lua ${version}`). -/
inductive LuaTarget where
  | LuaJIT : LuaTarget
  | other : String → LuaTarget
deriving DecidableEq

/-- Modelled from the spec: the string a `LuaTarget` value interpolates to
inside a template literal (the enumeration's string value). -/
def LuaTarget.interpolate : LuaTarget → String
  | .LuaJIT => "JIT"
  | .other version => version

/-! The diagnostic catalog. Message providers that claims reason about are
named `...Message`; each factory binds them exactly as the source does. In
the source the optional-name providers test `name ?`, which under JavaScript
truthiness is false both for `undefined` and for the empty string; the
embedding models the optional parameter as `Option String` and the
truthiness test accordingly. Adjacent string-literal concatenation in the
source is folded into single literals. -/

def unsupportedNodeKindMessage (kind : SyntaxKind) : String :=
  "Unsupported node kind " ++ kind.name

def unsupportedNodeKind : TSNode → SyntaxKind → DiagnosticRecord :=
  createErrorDiagnosticFactory (.fn unsupportedNodeKindMessage)

def forbiddenForIn {α : Type} : TSNode → α → DiagnosticRecord :=
  createErrorDiagnosticFactory
    (.str ("Iterating over arrays with 'for ... in' is not allowed."))

def unsupportedNoSelfFunctionConversionMessage (name : Option String) : String :=
  let nameReference :=
    match name with
    | some s => if s = "" then "" else " '" ++ s ++ "'"
    | none => ""
  "Unable to convert function with a 'this' parameter to function" ++ nameReference ++
    " with no 'this'. To fix, wrap in an arrow function, or declare with 'this: void'."

def unsupportedNoSelfFunctionConversion : TSNode → Option String → DiagnosticRecord :=
  createErrorDiagnosticFactory (.fn unsupportedNoSelfFunctionConversionMessage)

def unsupportedSelfFunctionConversionMessage (name : Option String) : String :=
  let nameReference :=
    match name with
    | some s => if s = "" then "" else " '" ++ s ++ "'"
    | none => ""
  "Unable to convert function with no 'this' parameter to function" ++ nameReference ++
    " with 'this'. To fix, wrap in an arrow function, or declare with 'this: any'."

def unsupportedSelfFunctionConversion : TSNode → Option String → DiagnosticRecord :=
  createErrorDiagnosticFactory (.fn unsupportedSelfFunctionConversionMessage)

def unsupportedOverloadAssignmentMessage (name : Option String) : String :=
  let nameReference :=
    match name with
    | some s => if s = "" then "" else " to '" ++ s ++ "'"
    | none => ""
  "Unsupported assignment of function with different overloaded types for 'this'" ++
    nameReference ++ ". Overloads should all have the same type for 'this'."

def unsupportedOverloadAssignment : TSNode → Option String → DiagnosticRecord :=
  createErrorDiagnosticFactory (.fn unsupportedOverloadAssignmentMessage)

def decoratorInvalidContext {α : Type} : TSNode → α → DiagnosticRecord :=
  createErrorDiagnosticFactory (.str ("Decorator function cannot have 'this: void'."))

def annotationInvalidArgumentCountMessage (kind : AnnotationKind) (got expected : Nat) : String :=
  "'@" ++ kind ++ "' expects " ++ toString expected ++ " arguments, but got " ++
    toString got ++ "."

def annotationInvalidArgumentCount : TSNode → AnnotationKind × Nat × Nat → DiagnosticRecord :=
  createErrorDiagnosticFactory
    (.fn (fun args => annotationInvalidArgumentCountMessage args.1 args.2.1 args.2.2))

def extensionCannotConstruct {α : Type} : TSNode → α → DiagnosticRecord :=
  createErrorDiagnosticFactory
    (.str ("Cannot construct classes with '@extension' or '@metaExtension' annotation."))

def extensionCannotExtend {α : Type} : TSNode → α → DiagnosticRecord :=
  createErrorDiagnosticFactory
    (.str ("Cannot extend classes with '@extension' or '@metaExtension' annotation."))

def extensionCannotExport {α : Type} : TSNode → α → DiagnosticRecord :=
  createErrorDiagnosticFactory
    (.str ("Cannot export classes with '@extension' or '@metaExtension' annotation."))

def extensionInvalidInstanceOf {α : Type} : TSNode → α → DiagnosticRecord :=
  createErrorDiagnosticFactory
    (.str ("Cannot use instanceof on classes with '@extension' or '@metaExtension' annotation."))

def extensionAndMetaExtensionConflict {α : Type} : TSNode → α → DiagnosticRecord :=
  createErrorDiagnosticFactory
    (.str ("Cannot use both '@extension' and '@metaExtension' annotations on the same class."))

def metaExtensionMissingExtends {α : Type} : TSNode → α → DiagnosticRecord :=
  createErrorDiagnosticFactory
    (.str ("'@metaExtension' annotation requires the extension of the metatable class."))

def invalidForRangeCall : TSNode → String → DiagnosticRecord :=
  createErrorDiagnosticFactory
    (.fn (fun message => "Invalid @forRange call: " ++ message ++ "."))

def luaTableMustBeAmbient {α : Type} : TSNode → α → DiagnosticRecord :=
  createErrorDiagnosticFactory
    (.str ("Classes with the '@luaTable' annotation must be ambient."))

def luaTableCannotBeExtended {α : Type} : TSNode → α → DiagnosticRecord :=
  createErrorDiagnosticFactory
    (.str ("Cannot extend classes with the '@luaTable' annotation."))

def luaTableInvalidInstanceOf {α : Type} : TSNode → α → DiagnosticRecord :=
  createErrorDiagnosticFactory
    (.str ("The instanceof operator cannot be used with a '@luaTable' class."))

def luaTableCannotBeAccessedDynamically {α : Type} : TSNode → α → DiagnosticRecord :=
  createErrorDiagnosticFactory (.str ("@luaTable cannot be accessed dynamically."))

def luaTableForbiddenUsage : TSNode → String → DiagnosticRecord :=
  createErrorDiagnosticFactory
    (.fn (fun description => "Invalid @luaTable usage: " ++ description ++ "."))

def luaIteratorForbiddenUsage {α : Type} : TSNode → α → DiagnosticRecord :=
  createErrorDiagnosticFactory
    (.str ("Unsupported use of lua iterator with '@tupleReturn' annotation in for...of statement. You must use a destructuring statement to catch results from a lua iterator with the '@tupleReturn' annotation."))

def unsupportedAccessorInObjectLiteral {α : Type} : TSNode → α → DiagnosticRecord :=
  createErrorDiagnosticFactory
    (.str ("Accessors in object literal are not supported."))

def unsupportedRightShiftOperator {α : Type} : TSNode → α → DiagnosticRecord :=
  createErrorDiagnosticFactory
    (.str ("Right shift operator is not supported for target Lua 5.3. Use `>>>` instead."))

def getLuaTargetName (version : LuaTarget) : String :=
  if version = LuaTarget.LuaJIT then "LuaJIT" else "Lua " ++ version.interpolate

def unsupportedForTarget : TSNode → String × LuaTarget → DiagnosticRecord :=
  createErrorDiagnosticFactory
    (.fn (fun args =>
      args.1 ++ " is/are not supported for target " ++ getLuaTargetName args.2 ++ "."))

def unsupportedProperty : TSNode → String × String → DiagnosticRecord :=
  createErrorDiagnosticFactory
    (.fn (fun args => args.1 ++ "." ++ args.2 ++ " is unsupported."))

def invalidAmbientIdentifierName : TSNode → String → DiagnosticRecord :=
  createErrorDiagnosticFactory
    (.fn (fun text =>
      "Invalid ambient identifier name '" ++ text ++
        "'. Ambient identifiers must be valid lua identifiers."))

def unresolvableRequirePath : TSNode → String → DiagnosticRecord :=
  createErrorDiagnosticFactory
    (.fn (fun path =>
      "Cannot create require path. Module '" ++ path ++ "' does not exist within --rootDir."))

def unsupportedVarDeclaration {α : Type} : TSNode → α → DiagnosticRecord :=
  createErrorDiagnosticFactory
    (.str ("`var` declarations are not supported. Use `let` or `const` instead."))

def annotationDeprecatedMessage (kind : AnnotationKind) : String :=
  "'@" ++ kind ++
    "' is deprecated and will be removed in a future update. Please update your code before upgrading to the next release, otherwise your project will no longer compile. See https://typescripttolua.github.io/docs/advanced/compiler-annotations#" ++
    toLowerCase kind ++ " for more information."

def annotationDeprecated : TSNode → AnnotationKind → DiagnosticRecord :=
  createWarningDiagnosticFactory (.fn annotationDeprecatedMessage)

/-! Predicates used to state the claims uniformly over the catalog. -/

/-- A factory's record carries, unmodified, the Position Resolver's output
for the node it was invoked on. -/
def preservesSpan {α : Type} (f : TSNode → α → DiagnosticRecord) : Prop :=
  ∀ (node : TSNode) (args : α),
    (f node args).file = node.getSourceFile ∧
    (f node args).start = node.getStart ∧
    (f node args).length = node.getWidth

/-- A factory's record text is the constant `t`, whatever the node and the
extra arguments. -/
def constantText {α : Type} (f : TSNode → α → DiagnosticRecord) (t : String) : Prop :=
  ∀ (node : TSNode) (args : α), (f node args).messageText = t

/-- A factory's record category is the severity `c` fixed at construction
time, on every invocation. -/
def hasCategory {α : Type} (f : TSNode → α → DiagnosticRecord) (c : DiagnosticCategory) : Prop :=
  ∀ (node : TSNode) (args : α), (f node args).category = c

/-- Every invocation of the factory yields exactly one record. -/
def yieldsExactlyOneRecord {α : Type} (f : TSNode → α → DiagnosticRecord) : Prop :=
  ∀ (node : TSNode) (args : α), ∃! record : DiagnosticRecord, f node args = record

/-- Two invocations of the factory on identical inputs yield records that
are field-for-field equal. -/
def deterministicFactory {α : Type} (f : TSNode → α → DiagnosticRecord) : Prop :=
  ∀ (node₁ node₂ : TSNode) (args₁ args₂ : α), node₁ = node₂ → args₁ = args₂ →
    (f node₁ args₁).file = (f node₂ args₂).file ∧
    (f node₁ args₁).start = (f node₂ args₂).start ∧
    (f node₁ args₁).length = (f node₂ args₂).length ∧
    (f node₁ args₁).category = (f node₂ args₂).category ∧
    (f node₁ args₁).messageText = (f node₂ args₂).messageText

/-- Claim C1: for every catalog factory and every node and argument list,
the returned record's `file`, `start` and `length` fields equal, unmodified,
the Position Resolver's output for the node (`node.getSourceFile()`,
`node.getStart()`, `node.getWidth()`). -/
theorem claim_C1_span_unmodified : ∀ (α : Type),
    preservesSpan unsupportedNodeKind ∧
    preservesSpan (@forbiddenForIn α) ∧
    preservesSpan unsupportedNoSelfFunctionConversion ∧
    preservesSpan unsupportedSelfFunctionConversion ∧
    preservesSpan unsupportedOverloadAssignment ∧
    preservesSpan (@decoratorInvalidContext α) ∧
    preservesSpan annotationInvalidArgumentCount ∧
    preservesSpan (@extensionCannotConstruct α) ∧
    preservesSpan (@extensionCannotExtend α) ∧
    preservesSpan (@extensionCannotExport α) ∧
    preservesSpan (@extensionInvalidInstanceOf α) ∧
    preservesSpan (@extensionAndMetaExtensionConflict α) ∧
    preservesSpan (@metaExtensionMissingExtends α) ∧
    preservesSpan invalidForRangeCall ∧
    preservesSpan (@luaTableMustBeAmbient α) ∧
    preservesSpan (@luaTableCannotBeExtended α) ∧
    preservesSpan (@luaTableInvalidInstanceOf α) ∧
    preservesSpan (@luaTableCannotBeAccessedDynamically α) ∧
    preservesSpan luaTableForbiddenUsage ∧
    preservesSpan (@luaIteratorForbiddenUsage α) ∧
    preservesSpan (@unsupportedAccessorInObjectLiteral α) ∧
    preservesSpan (@unsupportedRightShiftOperator α) ∧
    preservesSpan unsupportedForTarget ∧
    preservesSpan unsupportedProperty ∧
    preservesSpan invalidAmbientIdentifierName ∧
    preservesSpan unresolvableRequirePath ∧
    preservesSpan (@unsupportedVarDeclaration α) ∧
    preservesSpan annotationDeprecated := by
  intro α
  refine ⟨?_, ?_, ?_, ?_, ?_, ?_, ?_, ?_, ?_, ?_, ?_, ?_, ?_, ?_, ?_, ?_, ?_, ?_, ?_, ?_,
    ?_, ?_, ?_, ?_, ?_, ?_, ?_, ?_⟩ <;>
    exact fun node args => ⟨rfl, rfl, rfl⟩

/-- Claim C3: `annotationInvalidArgumentCount` with `kind = "foo"`,
`got = 2`, `expected = 1` renders exactly
`'@foo' expects 1 arguments, but got 2.` — `expected` is printed before
`got` and no singular/plural adjustment is applied. -/
theorem claim_C3_argument_count_text :
    ∀ node : TSNode,
      (annotationInvalidArgumentCount node (("foo"), 2, 1)).messageText =
        "'@foo' expects 1 arguments, but got 2." :=
  fun _ => rfl

/-- Claim C4: `annotationDeprecated` with `kind = "MyAnnotation"` renders a
documentation reference containing the lower-cased tag `myannotation` while
the body quotes `'@MyAnnotation'` in original case; the second conjunct
locates both occurrences in the template, showing that lower-casing applies
only to the reference fragment. -/
theorem claim_C4_deprecated_casing :
    ∀ node : TSNode,
      (annotationDeprecated node ("MyAnnotation")).messageText =
        "'@MyAnnotation' is deprecated and will be removed in a future update. Please update your code before upgrading to the next release, otherwise your project will no longer compile. See https://typescripttolua.github.io/docs/advanced/compiler-annotations#myannotation for more information." ∧
      (annotationDeprecated node ("MyAnnotation")).messageText =
        "'@" ++ ("MyAnnotation") ++
          "' is deprecated and will be removed in a future update. Please update your code before upgrading to the next release, otherwise your project will no longer compile. See https://typescripttolua.github.io/docs/advanced/compiler-annotations#" ++
          ("myannotation") ++ " for more information." :=
  fun _ => ⟨rfl, rfl⟩

/-- Claim C5: the target-name rendering used by `unsupportedForTarget` maps
the special-cased identifier `LuaJIT` to the alias string `"LuaJIT"`, and
every other target identifier to `"Lua <version>"` with no alias
substitution; the last conjunct shows the rendering inside the full
factory message. -/
theorem claim_C5_target_name :
    getLuaTargetName LuaTarget.LuaJIT = "LuaJIT" ∧
    (∀ version : String, getLuaTargetName (LuaTarget.other version) = "Lua " ++ version) ∧
    (∀ (node : TSNode) (functionality version : String),
      (unsupportedForTarget node (functionality, LuaTarget.other version)).messageText =
        functionality ++ " is/are not supported for target " ++ ("Lua " ++ version) ++ ".") :=
  ⟨rfl, fun _ => rfl, fun _ _ _ => rfl⟩

/-- Claim C10: for each optional-name factory, passing the empty string as
the name produces exactly the same record as passing no name at all — the
empty string is treated as absence (JavaScript truthiness of `name ?`). -/
theorem claim_C10_empty_name_is_absent :
    ∀ node : TSNode,
      unsupportedNoSelfFunctionConversion node (some ("")) =
        unsupportedNoSelfFunctionConversion node none ∧
      unsupportedSelfFunctionConversion node (some ("")) =
        unsupportedSelfFunctionConversion node none ∧
      unsupportedOverloadAssignment node (some ("")) =
        unsupportedOverloadAssignment node none :=
  fun _ => ⟨rfl, rfl, rfl⟩

/-- The formatting policy claimed for the optional-name providers: the
absent-name text splits at a designated position, and a present name is
rendered by inserting exactly a single leading space plus the name in
single quotes at that position, nothing else changing. -/
def insertsBareQuotedName (msg : Option String → String) : Prop :=
  ∃ p s : String, msg none = p ++ s ∧
    ∀ name : String, name ≠ "" → msg (some name) = p ++ (" '" ++ name ++ "'") ++ s

/-- Claim C2 as stated: all three optional-name providers follow the
single-space-plus-quoted-name insertion policy. -/
def optionalNameClaimAsStated : Prop :=
  insertsBareQuotedName unsupportedNoSelfFunctionConversionMessage ∧
  insertsBareQuotedName unsupportedSelfFunctionConversionMessage ∧
  insertsBareQuotedName unsupportedOverloadAssignmentMessage

/-- Claim C2 is false as stated: `unsupportedOverloadAssignment` does not
insert exactly a single space plus the quoted name — at name `"x"` it
inserts the seven characters of a space, the word `to`, another space and
`'x'`, which no split of the absent-name text into a prefix and a suffix
can reconcile with a four-character insertion. -/
theorem claim_C2_counterexample : ¬ optionalNameClaimAsStated := by
  rintro ⟨-, -, p, s, hnone, hall⟩
  have hx := hall ("x") (by decide)
  have hn := congrArg String.length hnone
  have hxl := congrArg String.length hx
  have h7 : (unsupportedOverloadAssignmentMessage (some ("x"))).length =
      (unsupportedOverloadAssignmentMessage none).length + 7 := by decide
  have e1 : (" '" : String).length = 2 := rfl
  have e2 : ("x" : String).length = 1 := rfl
  have e3 : ("'" : String).length = 1 := rfl
  simp only [String.length_append] at hn hxl
  omega

/-- Claim C2 amended: when the name is absent no quoted identifier is
inserted anywhere; when a non-empty name is given,
`unsupportedNoSelfFunctionConversion` and
`unsupportedSelfFunctionConversion` insert exactly a single leading space
plus the name in single quotes at the designated position, while
`unsupportedOverloadAssignment` inserts a single leading space plus the
word `to`, a space, and the name in single quotes — no other text varies
between the two shapes. -/
theorem claim_C2_amended (name : String) (h : name ≠ "") :
    unsupportedNoSelfFunctionConversionMessage none =
      "Unable to convert function with a 'this' parameter to function" ++
        " with no 'this'. To fix, wrap in an arrow function, or declare with 'this: void'." ∧
    unsupportedNoSelfFunctionConversionMessage (some name) =
      "Unable to convert function with a 'this' parameter to function" ++
        (" '" ++ name ++ "'") ++
        " with no 'this'. To fix, wrap in an arrow function, or declare with 'this: void'." ∧
    unsupportedSelfFunctionConversionMessage none =
      "Unable to convert function with no 'this' parameter to function" ++
        " with 'this'. To fix, wrap in an arrow function, or declare with 'this: any'." ∧
    unsupportedSelfFunctionConversionMessage (some name) =
      "Unable to convert function with no 'this' parameter to function" ++
        (" '" ++ name ++ "'") ++
        " with 'this'. To fix, wrap in an arrow function, or declare with 'this: any'." ∧
    unsupportedOverloadAssignmentMessage none =
      "Unsupported assignment of function with different overloaded types for 'this'" ++
        ". Overloads should all have the same type for 'this'." ∧
    unsupportedOverloadAssignmentMessage (some name) =
      "Unsupported assignment of function with different overloaded types for 'this'" ++
        (" to '" ++ name ++ "'") ++
        ". Overloads should all have the same type for 'this'." := by
  refine ⟨rfl, ?_, rfl, ?_, rfl, ?_⟩
  · have step : unsupportedNoSelfFunctionConversionMessage (some name) =
        "Unable to convert function with a 'this' parameter to function" ++
          (if name = "" then "" else " '" ++ name ++ "'") ++
          " with no 'this'. To fix, wrap in an arrow function, or declare with 'this: void'." :=
      rfl
    rw [step, if_neg h]
  · have step : unsupportedSelfFunctionConversionMessage (some name) =
        "Unable to convert function with no 'this' parameter to function" ++
          (if name = "" then "" else " '" ++ name ++ "'") ++
          " with 'this'. To fix, wrap in an arrow function, or declare with 'this: any'." :=
      rfl
    rw [step, if_neg h]
  · have step : unsupportedOverloadAssignmentMessage (some name) =
        "Unsupported assignment of function with different overloaded types for 'this'" ++
          (if name = "" then "" else " to '" ++ name ++ "'") ++
          ". Overloads should all have the same type for 'this'." :=
      rfl
    rw [step, if_neg h]

/-- Witness for the amended claim C2 at the concrete name `"x"`. -/
theorem claim_C2_amended_witness :
    unsupportedNoSelfFunctionConversionMessage none =
      "Unable to convert function with a 'this' parameter to function" ++
        " with no 'this'. To fix, wrap in an arrow function, or declare with 'this: void'." ∧
    unsupportedNoSelfFunctionConversionMessage (some ("x")) =
      "Unable to convert function with a 'this' parameter to function" ++
        (" '" ++ ("x") ++ "'") ++
        " with no 'this'. To fix, wrap in an arrow function, or declare with 'this: void'." ∧
    unsupportedSelfFunctionConversionMessage none =
      "Unable to convert function with no 'this' parameter to function" ++
        " with 'this'. To fix, wrap in an arrow function, or declare with 'this: any'." ∧
    unsupportedSelfFunctionConversionMessage (some ("x")) =
      "Unable to convert function with no 'this' parameter to function" ++
        (" '" ++ ("x") ++ "'") ++
        " with 'this'. To fix, wrap in an arrow function, or declare with 'this: any'." ∧
    unsupportedOverloadAssignmentMessage none =
      "Unsupported assignment of function with different overloaded types for 'this'" ++
        ". Overloads should all have the same type for 'this'." ∧
    unsupportedOverloadAssignmentMessage (some ("x")) =
      "Unsupported assignment of function with different overloaded types for 'this'" ++
        (" to '" ++ ("x") ++ "'") ++
        ". Overloads should all have the same type for 'this'." :=
  claim_C2_amended ("x") (by decide)

/-- Claim C6: every catalog factory built with a constant-string message
provider returns that constant string as its text, identical across all
invocations regardless of the node or any extra arguments supplied. -/
theorem claim_C6_constant_text : ∀ (α : Type),
    constantText (@forbiddenForIn α)
      ("Iterating over arrays with 'for ... in' is not allowed.") ∧
    constantText (@decoratorInvalidContext α)
      ("Decorator function cannot have 'this: void'.") ∧
    constantText (@extensionCannotConstruct α)
      ("Cannot construct classes with '@extension' or '@metaExtension' annotation.") ∧
    constantText (@extensionCannotExtend α)
      ("Cannot extend classes with '@extension' or '@metaExtension' annotation.") ∧
    constantText (@extensionCannotExport α)
      ("Cannot export classes with '@extension' or '@metaExtension' annotation.") ∧
    constantText (@extensionInvalidInstanceOf α)
      ("Cannot use instanceof on classes with '@extension' or '@metaExtension' annotation.") ∧
    constantText (@extensionAndMetaExtensionConflict α)
      ("Cannot use both '@extension' and '@metaExtension' annotations on the same class.") ∧
    constantText (@metaExtensionMissingExtends α)
      ("'@metaExtension' annotation requires the extension of the metatable class.") ∧
    constantText (@luaTableMustBeAmbient α)
      ("Classes with the '@luaTable' annotation must be ambient.") ∧
    constantText (@luaTableCannotBeExtended α)
      ("Cannot extend classes with the '@luaTable' annotation.") ∧
    constantText (@luaTableInvalidInstanceOf α)
      ("The instanceof operator cannot be used with a '@luaTable' class.") ∧
    constantText (@luaTableCannotBeAccessedDynamically α)
      ("@luaTable cannot be accessed dynamically.") ∧
    constantText (@luaIteratorForbiddenUsage α)
      ("Unsupported use of lua iterator with '@tupleReturn' annotation in for...of statement. You must use a destructuring statement to catch results from a lua iterator with the '@tupleReturn' annotation.") ∧
    constantText (@unsupportedAccessorInObjectLiteral α)
      ("Accessors in object literal are not supported.") ∧
    constantText (@unsupportedRightShiftOperator α)
      ("Right shift operator is not supported for target Lua 5.3. Use `>>>` instead.") ∧
    constantText (@unsupportedVarDeclaration α)
      ("`var` declarations are not supported. Use `let` or `const` instead.") := by
  intro α
  refine ⟨?_, ?_, ?_, ?_, ?_, ?_, ?_, ?_, ?_, ?_, ?_, ?_, ?_, ?_, ?_, ?_⟩ <;>
    exact fun node args => rfl

/-- Claim C7: every catalog factory's record carries the severity fixed at
construction time — `Error` for the factories built via
`createErrorDiagnosticFactory`, `Warning` for `annotationDeprecated`, built
via `createWarningDiagnosticFactory` — on every invocation, whatever the
node and arguments. -/
theorem claim_C7_category_fixed : ∀ (α : Type),
    hasCategory unsupportedNodeKind DiagnosticCategory.Error ∧
    hasCategory (@forbiddenForIn α) DiagnosticCategory.Error ∧
    hasCategory unsupportedNoSelfFunctionConversion DiagnosticCategory.Error ∧
    hasCategory unsupportedSelfFunctionConversion DiagnosticCategory.Error ∧
    hasCategory unsupportedOverloadAssignment DiagnosticCategory.Error ∧
    hasCategory (@decoratorInvalidContext α) DiagnosticCategory.Error ∧
    hasCategory annotationInvalidArgumentCount DiagnosticCategory.Error ∧
    hasCategory (@extensionCannotConstruct α) DiagnosticCategory.Error ∧
    hasCategory (@extensionCannotExtend α) DiagnosticCategory.Error ∧
    hasCategory (@extensionCannotExport α) DiagnosticCategory.Error ∧
    hasCategory (@extensionInvalidInstanceOf α) DiagnosticCategory.Error ∧
    hasCategory (@extensionAndMetaExtensionConflict α) DiagnosticCategory.Error ∧
    hasCategory (@metaExtensionMissingExtends α) DiagnosticCategory.Error ∧
    hasCategory invalidForRangeCall DiagnosticCategory.Error ∧
    hasCategory (@luaTableMustBeAmbient α) DiagnosticCategory.Error ∧
    hasCategory (@luaTableCannotBeExtended α) DiagnosticCategory.Error ∧
    hasCategory (@luaTableInvalidInstanceOf α) DiagnosticCategory.Error ∧
    hasCategory (@luaTableCannotBeAccessedDynamically α) DiagnosticCategory.Error ∧
    hasCategory luaTableForbiddenUsage DiagnosticCategory.Error ∧
    hasCategory (@luaIteratorForbiddenUsage α) DiagnosticCategory.Error ∧
    hasCategory (@unsupportedAccessorInObjectLiteral α) DiagnosticCategory.Error ∧
    hasCategory (@unsupportedRightShiftOperator α) DiagnosticCategory.Error ∧
    hasCategory unsupportedForTarget DiagnosticCategory.Error ∧
    hasCategory unsupportedProperty DiagnosticCategory.Error ∧
    hasCategory invalidAmbientIdentifierName DiagnosticCategory.Error ∧
    hasCategory unresolvableRequirePath DiagnosticCategory.Error ∧
    hasCategory (@unsupportedVarDeclaration α) DiagnosticCategory.Error ∧
    hasCategory annotationDeprecated DiagnosticCategory.Warning := by
  intro α
  refine ⟨?_, ?_, ?_, ?_, ?_, ?_, ?_, ?_, ?_, ?_, ?_, ?_, ?_, ?_, ?_, ?_, ?_, ?_, ?_, ?_,
    ?_, ?_, ?_, ?_, ?_, ?_, ?_, ?_⟩ <;>
    exact fun node args => rfl

/-- Claim C8: every invocation of every catalog factory unconditionally
terminates and yields exactly one record — the embedding of each factory is
a total function into `DiagnosticRecord`, with no error branch and no
suppression. -/
theorem claim_C8_total_unique : ∀ (α : Type),
    yieldsExactlyOneRecord unsupportedNodeKind ∧
    yieldsExactlyOneRecord (@forbiddenForIn α) ∧
    yieldsExactlyOneRecord unsupportedNoSelfFunctionConversion ∧
    yieldsExactlyOneRecord unsupportedSelfFunctionConversion ∧
    yieldsExactlyOneRecord unsupportedOverloadAssignment ∧
    yieldsExactlyOneRecord (@decoratorInvalidContext α) ∧
    yieldsExactlyOneRecord annotationInvalidArgumentCount ∧
    yieldsExactlyOneRecord (@extensionCannotConstruct α) ∧
    yieldsExactlyOneRecord (@extensionCannotExtend α) ∧
    yieldsExactlyOneRecord (@extensionCannotExport α) ∧
    yieldsExactlyOneRecord (@extensionInvalidInstanceOf α) ∧
    yieldsExactlyOneRecord (@extensionAndMetaExtensionConflict α) ∧
    yieldsExactlyOneRecord (@metaExtensionMissingExtends α) ∧
    yieldsExactlyOneRecord invalidForRangeCall ∧
    yieldsExactlyOneRecord (@luaTableMustBeAmbient α) ∧
    yieldsExactlyOneRecord (@luaTableCannotBeExtended α) ∧
    yieldsExactlyOneRecord (@luaTableInvalidInstanceOf α) ∧
    yieldsExactlyOneRecord (@luaTableCannotBeAccessedDynamically α) ∧
    yieldsExactlyOneRecord luaTableForbiddenUsage ∧
    yieldsExactlyOneRecord (@luaIteratorForbiddenUsage α) ∧
    yieldsExactlyOneRecord (@unsupportedAccessorInObjectLiteral α) ∧
    yieldsExactlyOneRecord (@unsupportedRightShiftOperator α) ∧
    yieldsExactlyOneRecord unsupportedForTarget ∧
    yieldsExactlyOneRecord unsupportedProperty ∧
    yieldsExactlyOneRecord invalidAmbientIdentifierName ∧
    yieldsExactlyOneRecord unresolvableRequirePath ∧
    yieldsExactlyOneRecord (@unsupportedVarDeclaration α) ∧
    yieldsExactlyOneRecord annotationDeprecated := by
  intro α
  refine ⟨?_, ?_, ?_, ?_, ?_, ?_, ?_, ?_, ?_, ?_, ?_, ?_, ?_, ?_, ?_, ?_, ?_, ?_, ?_, ?_,
    ?_, ?_, ?_, ?_, ?_, ?_, ?_, ?_⟩ <;>
    exact fun node args => ⟨_, rfl, fun record h => h.symm⟩

/-- Claim C9: every catalog factory is deterministic — two invocations with
identical node and arguments yield records that are field-for-field equal
(same file, start, length, category, text); the embedding holds no hidden
counter, timestamp or locale state. -/
theorem claim_C9_deterministic : ∀ (α : Type),
    deterministicFactory unsupportedNodeKind ∧
    deterministicFactory (@forbiddenForIn α) ∧
    deterministicFactory unsupportedNoSelfFunctionConversion ∧
    deterministicFactory unsupportedSelfFunctionConversion ∧
    deterministicFactory unsupportedOverloadAssignment ∧
    deterministicFactory (@decoratorInvalidContext α) ∧
    deterministicFactory annotationInvalidArgumentCount ∧
    deterministicFactory (@extensionCannotConstruct α) ∧
    deterministicFactory (@extensionCannotExtend α) ∧
    deterministicFactory (@extensionCannotExport α) ∧
    deterministicFactory (@extensionInvalidInstanceOf α) ∧
    deterministicFactory (@extensionAndMetaExtensionConflict α) ∧
    deterministicFactory (@metaExtensionMissingExtends α) ∧
    deterministicFactory invalidForRangeCall ∧
    deterministicFactory (@luaTableMustBeAmbient α) ∧
    deterministicFactory (@luaTableCannotBeExtended α) ∧
    deterministicFactory (@luaTableInvalidInstanceOf α) ∧
    deterministicFactory (@luaTableCannotBeAccessedDynamically α) ∧
    deterministicFactory luaTableForbiddenUsage ∧
    deterministicFactory (@luaIteratorForbiddenUsage α) ∧
    deterministicFactory (@unsupportedAccessorInObjectLiteral α) ∧
    deterministicFactory (@unsupportedRightShiftOperator α) ∧
    deterministicFactory unsupportedForTarget ∧
    deterministicFactory unsupportedProperty ∧
    deterministicFactory invalidAmbientIdentifierName ∧
    deterministicFactory unresolvableRequirePath ∧
    deterministicFactory (@unsupportedVarDeclaration α) ∧
    deterministicFactory annotationDeprecated := by
  intro α
  refine ⟨?_, ?_, ?_, ?_, ?_, ?_, ?_, ?_, ?_, ?_, ?_, ?_, ?_, ?_, ?_, ?_, ?_, ?_, ?_, ?_,
    ?_, ?_, ?_, ?_, ?_, ?_, ?_, ?_⟩ <;>
    exact fun node₁ node₂ args₁ args₂ hn ha => by
      subst hn; subst ha; exact ⟨rfl, rfl, rfl, rfl, rfl⟩

/-- A concrete AST node used to evaluate the theorems at an input. -/
def demoNode : TSNode :=
  { sourceFile := { id := 0 }, startOffset := 5, width := 3 }

/-- A concrete syntax kind used to evaluate the theorems at an input. -/
def demoKind : SyntaxKind :=
  { code := 0, name := "Unknown" }

/-- Witness for claim C9 at a concrete node and syntax kind. -/
theorem claim_C9_witness :
    (unsupportedNodeKind demoNode demoKind).file =
      (unsupportedNodeKind demoNode demoKind).file ∧
    (unsupportedNodeKind demoNode demoKind).start =
      (unsupportedNodeKind demoNode demoKind).start ∧
    (unsupportedNodeKind demoNode demoKind).length =
      (unsupportedNodeKind demoNode demoKind).length ∧
    (unsupportedNodeKind demoNode demoKind).category =
      (unsupportedNodeKind demoNode demoKind).category ∧
    (unsupportedNodeKind demoNode demoKind).messageText =
      (unsupportedNodeKind demoNode demoKind).messageText :=
  (claim_C9_deterministic Unit).1 demoNode demoNode demoKind demoKind rfl rfl
